import Mathlib

/-
Verification of the poster-compositing pipeline and the spreadsheet-backed
member store of the Image001 repository.

The embedding follows the two backend modules:
  * src/server/utils/excel.js  — member rows, updateMember, deleteMember
  * src/server/utils/image.js  — generateFooterSVG, processCircularImage,
    createFinalPoster

JavaScript numbers are modelled as follows: values the code floors
(Math.floor) or that stay integral are Nat; values that may be fractional
(SVG coordinates, the centered logo offset) are ℚ; values that may go
negative (spaceAfterLine) are ℤ.  Images are modelled as pixel grids:
dimensions plus rgb and alpha functions, with SVG circle rasterization
modelled as pixel-center-in-circle coverage.
-/

namespace Image001

/- ### Member rows (src/server/utils/excel.js) -/

/-- One spreadsheet row of the Members sheet. -/
structure Row where
  name : String
  email : String
  designation : String
  phone : String
deriving DecidableEq, Repr

/-- deleteMember (excel.js lines 50–60): keep rows unless both email and
designation match the given pair. -/
def deleteMember (members : List Row) (email designation : String) : List Row :=
  members.filter (fun m => !(m.email == email && m.designation == designation))

/-- The error message thrown by updateMember when no row matches. -/
def memberNotFound : String := "Member not found"

/-- updateMember (excel.js lines 38–48): find the first row whose email equals
the updated email; throw the not-found error when there is none, otherwise
overwrite that row. -/
def updateMember (members : List Row) (updated : Row) : Except String (List Row) :=
  match members.findIdx? (fun m => m.email == updated.email) with
  | none => Except.error memberNotFound
  | some index => Except.ok (members.set index updated)

/-- File-level run of updateMember: the spreadsheet file is rewritten only on
success (the throw happens before XLSX.writeFile). -/
def updateMemberFileRun (file : List Row) (updated : Row) :
    Except String Unit × List Row :=
  match updateMember file updated with
  | Except.error e => (Except.error e, file)
  | Except.ok rows => (Except.ok (), rows)

/- ### Geometry planner (image.js, createFinalPoster lines 68–75) -/

/-- photoSize = Math.floor(width * 0.18) -/
def photoSize (width : Nat) : Nat := width * 18 / 100

/-- fontSize = Math.floor(photoSize * 0.14) -/
def fontSize (width : Nat) : Nat := photoSize width * 14 / 100

/-- textWidth = width * 0.40 (not floored in the source, hence ℚ) -/
def textWidth (width : Nat) : ℚ := (width : ℚ) * 40 / 100

/-- logoSize = Math.floor(width * 0.15) -/
def logoSize (width : Nat) : Nat := width * 15 / 100

/-- requiredTextHeight = (fontSize + 6) * 4 -/
def requiredTextHeight (width : Nat) : Nat := (fontSize width + 6) * 4

/-- footerHeight = Math.max(photoSize, requiredTextHeight, logoSize) + 20 -/
def footerHeight (width : Nat) : Nat :=
  max (photoSize width) (max (requiredTextHeight width) (logoSize width)) + 20

/- ### Text-layer renderer (image.js, generateFooterSVG lines 12–39) -/

/-- One text element of the footer SVG: x/y attributes and the rendered
string. -/
structure SVGText where
  x : ℚ
  y : ℚ
  content : String
deriving DecidableEq, Repr

/-- The footer SVG document: declared width/height attributes and the four
text elements, in document order. -/
structure FooterSVG where
  width : ℚ
  height : ℚ
  texts : List SVGText
deriving DecidableEq, Repr

/-- generateFooterSVG: spacing = fontSize + 6, totalHeight = spacing * 4,
verticalPadding = (footerHeight - totalHeight) / 2,
startY = verticalPadding + fontSize; four left-aligned text lines at
startY, startY + spacing, startY + 2*spacing, startY + 3*spacing. -/
def generateFooterSVG (name designation phone : String)
    (tw fh fs : ℚ) : FooterSVG :=
  let spacing := fs + 6
  let totalHeight := spacing * 4
  let verticalPadding := (fh - totalHeight) / 2
  let startY := verticalPadding + fs
  { width := tw
    height := fh
    texts :=
      [⟨0, startY, name⟩,
       ⟨0, startY + spacing, designation ++ " | WealthPlus"⟩,
       ⟨0, startY + 2 * spacing, "Phone: " ++ phone⟩,
       ⟨0, startY + 3 * spacing, "IRDAI Certified Insurance Advisor"⟩] }

/- ### Footer layout (image.js, createFinalPoster lines 63–144) -/

/-- Pixel dimensions of a raster buffer (sharp metadata width/height). -/
structure Dims where
  w : Nat
  h : Nat
deriving DecidableEq, Repr

/-- A member record as used by the poster pipeline (person.photo is passed
separately as a raster input). -/
structure Member where
  name : String
  designation : String
  phone : String
deriving DecidableEq, Repr

/-- Ceiling of a rational to Nat (0 for non-positive values). -/
def ceilNat (q : ℚ) : Nat := (q.num.toNat + q.den - 1) / q.den

/-- Raster dimensions of the rasterized footer SVG: the declared width and
height attributes, rounded up to whole pixels.  At the canonical template
width the declared attributes are already integral (320 × footerHeight). -/
def svgRasterDims (svg : FooterSVG) : Dims :=
  ⟨ceilNat svg.width, ceilNat svg.height⟩

/-- Every measurement and placement coordinate computed by createFinalPoster
for the footer band (lines 68–75 and 111–141). -/
structure Layout where
  photoSize : Nat
  fontSize : Nat
  logoSize : Nat
  footerHeight : Nat
  textDims : Dims
  photoLeft : Nat
  photoTop : Nat
  textLeft : Nat
  textTop : Nat
  lineWidth : Nat
  lineGap : Nat
  rightSectionStart : Nat
  lineX : Nat
  lineHeight : Nat
  lineY : Nat
  spaceAfterLine : ℤ
  logoX : ℚ
  logoTop : Nat
deriving DecidableEq, Repr

/-- The layout computation of createFinalPoster: the member enters only
through the footer SVG, whose raster dimensions are its declared width and
height attributes. -/
def planLayout (width : Nat) (person : Member) : Layout :=
  let ps := photoSize width
  let fs := fontSize width
  let ls := logoSize width
  let fh := footerHeight width
  let svg := generateFooterSVG person.name person.designation person.phone
    (textWidth width) (fh : ℚ) (fs : ℚ)
  let textDims := svgRasterDims svg
  let photoLeft : Nat := 40
  let textLeft := photoLeft + ps + 20
  let lineWidth : Nat := 4
  let lineGap : Nat := 40
  let rightSectionStart := textLeft + textDims.w
  let lineX := rightSectionStart + lineGap
  let spaceAfterLine : ℤ := (width : ℤ) - ((lineX : ℤ) + (lineWidth : ℤ))
  let logoX : ℚ := (lineX : ℚ) + (lineWidth : ℚ) + ((spaceAfterLine : ℚ) - (ls : ℚ)) / 2
  { photoSize := ps
    fontSize := fs
    logoSize := ls
    footerHeight := fh
    textDims := textDims
    photoLeft := photoLeft
    photoTop := (fh - ps) / 2
    textLeft := textLeft
    textTop := (fh - textDims.h) / 2
    lineWidth := lineWidth
    lineGap := lineGap
    rightSectionStart := rightSectionStart
    lineX := lineX
    lineHeight := ls
    lineY := (fh - ls) / 2
    spaceAfterLine := spaceAfterLine
    logoX := logoX
    logoTop := (fh - ls) / 2 }

/- ### Job-level pipeline (image.js, createFinalPoster lines 63–162) -/

inductive PosterError where
  | templateDecode
  | photoDecode
  | logoDecode
deriving DecidableEq, Repr

/-- round(a / b) rounded half up, as sharp computes the scaled height. -/
def roundHalfUp (a b : Nat) : Nat := (2 * a + b) / (2 * b)

/-- sharp resize({ width: target }): width becomes target, height scales to
preserve the aspect ratio. -/
def resizeWidth (d : Dims) (target : Nat) : Dims :=
  ⟨target, roundHalfUp (d.h * target) d.w⟩

/-- The whole createFinalPoster job at buffer-dimension granularity: decode
the template (line 64) and resize it to the canonical width 800, plan the
layout, decode the member photo (line 89) and the logo (line 100), compose
the footer band and the final canvas, and only then perform the single
fs.writeFileSync (line 161).  An unreadable input is a None argument; the
second component is the list of file writes performed. -/
def createFinalPosterRun (template : Option Dims) (person : Member)
    (photo : Option Dims) (logo : Option Dims) (outputPath : String) :
    Except PosterError Dims × List (String × Dims) :=
  match template with
  | none => (Except.error PosterError.templateDecode, [])
  | some tpl =>
    let templateResized := resizeWidth tpl 800
    let width := templateResized.w
    let L := planLayout width person
    match photo with
    | none => (Except.error PosterError.photoDecode, [])
    | some _ =>
      match logo with
      | none => (Except.error PosterError.logoDecode, [])
      | some _ =>
        let finalDims : Dims := ⟨width, templateResized.h + L.footerHeight⟩
        (Except.ok finalDims, [(outputPath, finalDims)])

/- ### Pixel-level image model (image.js lines 44–58 and 89–109) -/

/-- A decoded raster image: dimensions plus rgb and alpha value (0–255) at
each pixel coordinate. -/
structure Img where
  w : Nat
  h : Nat
  rgb : Nat → Nat → Nat × Nat × Nat
  alpha : Nat → Nat → Nat

/-- Resize an image to the given dimensions (nearest-neighbour resampling of
pixel content). -/
def resizeNN (img : Img) (tw th : Nat) : Img :=
  ⟨tw, th,
   fun x y => img.rgb (x * img.w / tw) (y * img.h / th),
   fun x y => img.alpha (x * img.w / tw) (y * img.h / th)⟩

/-- Whether the center of pixel (x, y) lies inside the circle of diameter
size centered at (size/2, size/2): the coverage test of the rasterized SVG
circle mask, with everything scaled by 2 to stay integral. -/
def insideCircle (size x y : Nat) : Bool :=
  decide (((2 * x + 1 : ℤ) - size) ^ 2 + ((2 * y + 1 : ℤ) - size) ^ 2 ≤ (size : ℤ) ^ 2)

/-- The rasterized circle mask SVG: a white circle of radius size/2 centered
at (size/2, size/2), opaque inside the circle and transparent outside. -/
def circleMask (size : Nat) : Img :=
  ⟨size, size, fun _ _ => (255, 255, 255),
   fun x y => if insideCircle size x y then 255 else 0⟩

/-- sharp composite with blend dest-in: the base image is kept where the
overlay is opaque; the resulting alpha is the base alpha scaled by the
overlay alpha. -/
def destIn (base overlay : Img) : Img :=
  { base with alpha := fun x y => base.alpha x y * overlay.alpha x y / 255 }

/-- An encoded output buffer: channel count, whether the format carries an
alpha channel, and the decoded pixel content. -/
structure Encoded where
  channels : Nat
  hasAlpha : Bool
  img : Img

/-- JPEG encoding: the format has no alpha channel, so sharp resolves
transparency onto black; decoded pixels are fully opaque. -/
def jpegEncode (i : Img) : Encoded :=
  ⟨3, false,
   { i with
     rgb := fun x y =>
       ((i.rgb x y).1 * i.alpha x y / 255,
        (i.rgb x y).2.1 * i.alpha x y / 255,
        (i.rgb x y).2.2 * i.alpha x y / 255),
     alpha := fun _ _ => 255 }⟩

/-- PNG encoding keeps the alpha channel. -/
def pngEncode (i : Img) : Encoded := ⟨4, true, i⟩

/-- processCircularImage (image.js lines 44–58): resize the input to a
size × size square, mask it with the circle (dest-in), encode as JPEG; the
buffer is then written to the output path. -/
def processCircularImage (input : Img) (size : Nat) : Encoded :=
  jpegEncode (destIn (resizeNN input size size) (circleMask size))

/-- The circular photo layer built inside createFinalPoster (lines 89–98):
same resize and circle mask, but encoded as PNG, keeping transparency. -/
def circularPhotoLayer (photo : Img) (size : Nat) : Encoded :=
  pngEncode (destIn (resizeNN photo size size) (circleMask size))

/-- The footer background color: r 240, g 247, b 255. -/
def footerBackground : Nat × Nat × Nat := (240, 247, 255)

/-- sharp resize with fit contain: scale the image to fit within a
size × size box preserving the aspect ratio, and pad the rest with the
opaque background color. -/
def resizeContain (img : Img) (size : Nat) (bg : Nat × Nat × Nat) : Img :=
  let m := max img.w img.h
  let cw := img.w * size / m
  let ch := img.h * size / m
  let ox := (size - cw) / 2
  let oy := (size - ch) / 2
  ⟨size, size,
   fun x y =>
     if ox ≤ x ∧ x < ox + cw ∧ oy ≤ y ∧ y < oy + ch then
       (resizeNN img cw ch).rgb (x - ox) (y - oy)
     else bg,
   fun x y =>
     if ox ≤ x ∧ x < ox + cw ∧ oy ≤ y ∧ y < oy + ch then
       (resizeNN img cw ch).alpha (x - ox) (y - oy)
     else 255⟩

/-- sharp flatten: blend every pixel onto the background color; the result is
fully opaque. -/
def flattenOnto (i : Img) (bg : Nat × Nat × Nat) : Img :=
  { i with
    rgb := fun x y =>
      ((i.rgb x y).1 * i.alpha x y / 255 + bg.1 * (255 - i.alpha x y) / 255,
       (i.rgb x y).2.1 * i.alpha x y / 255 + bg.2.1 * (255 - i.alpha x y) / 255,
       (i.rgb x y).2.2 * i.alpha x y / 255 + bg.2.2 * (255 - i.alpha x y) / 255),
    alpha := fun _ _ => 255 }

/-- The normalized logo layer of createFinalPoster (lines 100–109): resize
with fit contain onto the footer background, flatten remaining transparency
onto that background, encode as JPEG. -/
def resizedLogoLayer (logo : Img) (size : Nat) : Encoded :=
  jpegEncode (flattenOnto (resizeContain logo size footerBackground) footerBackground)

/- ### Sample inputs used as concrete witnesses -/

/-- The example member of the spec test scenario. -/
def sampleMember : Member := ⟨"Asha Rao", "Wealth Manager", "9999999999"⟩

/-- A fully opaque 2 × 2 sample photo. -/
def samplePhoto : Img := ⟨2, 2, fun _ _ => (10, 20, 30), fun _ _ => 255⟩

/-- A decodable but translucent 2 × 2 sample photo: every pixel has alpha
128. -/
def translucentPhoto : Img := ⟨2, 2, fun _ _ => (10, 20, 30), fun _ _ => 128⟩

/-- A sample member row of the spreadsheet. -/
def sampleRow : Row := ⟨"Asha Rao", "asha@example.com", "Wealth Manager", "9999999999"⟩

/-- An update payload whose email matches no stored row. -/
def sampleUpdate : Row := ⟨"Ravi Kumar", "ravi@example.com", "Health insurance advisor", "8888888888"⟩

/-- An update payload with the same email as sampleRow but a different
designation and phone. -/
def sampleUpdate2 : Row := ⟨"Asha R Rao", "asha@example.com", "Health insurance advisor", "7777777777"⟩

/- ### Helper lemmas -/

/-- The first-index characterization of findIdx? with the default start. -/
theorem findIdx?_first {α : Type} (p : α → Bool) :
    ∀ (l : List α) (i : Nat) (hi : i < l.length),
      p (l.get ⟨i, hi⟩) = true →
      (∀ j (hj : j < l.length), j < i → p (l.get ⟨j, hj⟩) = false) →
      l.findIdx? p = some i := by
  intro l
  induction l with
  | nil => intro i hi _ _; simp at hi
  | cons x xs ih =>
    intro i hi hp hmin
    cases i with
    | zero =>
      simp only [List.get] at hp
      simp [List.findIdx?_cons, hp]
    | succ k =>
      have hx : p x = false := hmin 0 (by simp) (Nat.succ_pos k)
      have hk : k < xs.length := by
        simpa using Nat.lt_of_succ_lt_succ hi
      have hp2 : p (xs.get ⟨k, hk⟩) = true := hp
      have hmin2 : ∀ j (hj : j < xs.length), j < k → p (xs.get ⟨j, hj⟩) = false := by
        intro j hj hjk
        exact hmin (j + 1) (by simpa using Nat.succ_lt_succ hj) (Nat.succ_lt_succ hjk)
      rw [List.findIdx?_cons, if_neg (by simp [hx]), List.findIdx?_succ,
        ih k hk hp2 hmin2]
      rfl

/-- The declared text-block width at the canonical template width is exactly
320 pixels. -/
theorem ceilNat_textWidth_800 : ceilNat (textWidth 800) = 320 := by
  have h : textWidth 800 = 320 := by norm_num [textWidth]
  rw [ceilNat, h]
  norm_num
  decide

/-- Concrete layout numbers at the canonical width 800 for the sample
member. -/
theorem planLayout_800_fields :
    (planLayout 800 sampleMember).rightSectionStart = 524 ∧
    (planLayout 800 sampleMember).lineX = 564 ∧
    (planLayout 800 sampleMember).lineWidth = 4 ∧
    (planLayout 800 sampleMember).spaceAfterLine = 232 ∧
    (planLayout 800 sampleMember).logoX = 624 := by
  have hrss : (planLayout 800 sampleMember).rightSectionStart =
      40 + photoSize 800 + 20 + ceilNat (textWidth 800) := rfl
  have h1 : (planLayout 800 sampleMember).rightSectionStart = 524 := by
    rw [hrss, ceilNat_textWidth_800]; decide
  have hlx : (planLayout 800 sampleMember).lineX =
      (planLayout 800 sampleMember).rightSectionStart + 40 := rfl
  have h2 : (planLayout 800 sampleMember).lineX = 564 := by rw [hlx, h1]
  have hsw : (planLayout 800 sampleMember).lineWidth = 4 := rfl
  have hsp : (planLayout 800 sampleMember).spaceAfterLine =
      (800 : ℤ) - (((planLayout 800 sampleMember).lineX : ℤ) +
        ((planLayout 800 sampleMember).lineWidth : ℤ)) := rfl
  have h4 : (planLayout 800 sampleMember).spaceAfterLine = 232 := by
    rw [hsp, h2, hsw]; decide
  have hlg : (planLayout 800 sampleMember).logoX =
      ((planLayout 800 sampleMember).lineX : ℚ) +
        ((planLayout 800 sampleMember).lineWidth : ℚ) +
        (((planLayout 800 sampleMember).spaceAfterLine : ℚ) - (logoSize 800 : ℚ)) / 2 := rfl
  have h5 : (planLayout 800 sampleMember).logoX = 624 := by
    rw [hlg, h2, hsw, h4, show logoSize 800 = 120 from by decide]
    norm_num
  exact ⟨h1, h2, hsw, h4, h5⟩

/- ### Claim theorems -/

/-- C1 (counterexample): at template width 1 the floored photo size is zero
(as are the font and logo sizes), refuting strict positivity of every
geometry value for all widths w > 0. -/
theorem geometry_positive_cex :
    0 < (1 : Nat) ∧
    ¬ (0 < photoSize 1 ∧ 0 < fontSize 1 ∧ 0 < textWidth 1 ∧ 0 < logoSize 1 ∧
       0 < footerHeight 1 ∧ max (photoSize 1) (logoSize 1) ≤ footerHeight 1) :=
  ⟨Nat.one_pos, fun h => (by decide : ¬ 0 < photoSize 1) h.1⟩

/-- C1 (amended): for every template width w ≥ 45 the geometry computation
yields strictly positive photo diameter, font size, text width, logo side and
footer height, and the footer height dominates both the photo diameter and
the logo side.  (For 0 < w < 45 at least one floored value is zero; the
pipeline itself only ever calls the planner at the canonical width 800.) -/
theorem geometry_positive (width : Nat) (h : 45 ≤ width) :
    0 < photoSize width ∧ 0 < fontSize width ∧ 0 < textWidth width ∧
    0 < logoSize width ∧ 0 < footerHeight width ∧
    max (photoSize width) (logoSize width) ≤ footerHeight width := by
  refine ⟨?_, ?_, ?_, ?_, ?_, ?_⟩
  · simp only [photoSize]; omega
  · simp only [fontSize, photoSize]; omega
  · have hw : (0 : ℚ) < (width : ℚ) := by
      exact_mod_cast (show 0 < width by omega)
    unfold textWidth
    positivity
  · simp only [logoSize]; omega
  · simp only [footerHeight]; omega
  · simp only [footerHeight]; omega

/-- C1 witness: the amended theorem applied at the canonical width 800. -/
theorem geometry_positive_witness :
    45 ≤ 800 ∧
    (0 < photoSize 800 ∧ 0 < fontSize 800 ∧ 0 < textWidth 800 ∧
     0 < logoSize 800 ∧ 0 < footerHeight 800 ∧
     max (photoSize 800) (logoSize 800) ≤ footerHeight 800) :=
  ⟨by norm_num, geometry_positive 800 (by norm_num)⟩

/-- C2: every successful poster job produces a final image of width exactly
800 (the canonical resized template width) and height exactly the resized
template height plus the computed footer-band height. -/
theorem final_poster_dims (tpl : Dims) (person : Member) (photo logo : Option Dims)
    (out : String) (d : Dims)
    (h : (createFinalPosterRun (some tpl) person photo logo out).1 = Except.ok d) :
    d.w = 800 ∧ d.h = (resizeWidth tpl 800).h + footerHeight 800 := by
  cases photo with
  | none => simp [createFinalPosterRun] at h
  | some ph =>
    cases logo with
    | none => simp [createFinalPosterRun] at h
    | some lg =>
      simp only [createFinalPosterRun] at h
      rw [Except.ok.injEq] at h
      subst h
      exact ⟨rfl, rfl⟩

/-- C2 witness: a 1000 × 500 template resizes to 800 × 400 and yields an
800 × 564 poster (footer height 164 at width 800). -/
theorem final_poster_dims_witness :
    (createFinalPosterRun (some ⟨1000, 500⟩) sampleMember (some ⟨2, 2⟩)
        (some ⟨3, 3⟩) "poster.jpeg").1 = Except.ok ⟨800, 564⟩ ∧
    ((⟨800, 564⟩ : Dims).w = 800 ∧
     (⟨800, 564⟩ : Dims).h = (resizeWidth ⟨1000, 500⟩ 800).h + footerHeight 800) :=
  ⟨rfl, final_poster_dims ⟨1000, 500⟩ sampleMember (some ⟨2, 2⟩) (some ⟨3, 3⟩)
    "poster.jpeg" ⟨800, 564⟩ rfl⟩

/-- C3: a poster job writes the output file exactly once, at the end, from
the fully computed buffer: on any decode failure the write trace is empty,
and on success it is the single final write. -/
theorem no_partial_output (template : Option Dims) (person : Member)
    (photo logo : Option Dims) (out : String) :
    (∀ e, (createFinalPosterRun template person photo logo out).1 = Except.error e →
      (createFinalPosterRun template person photo logo out).2 = []) ∧
    (∀ d, (createFinalPosterRun template person photo logo out).1 = Except.ok d →
      (createFinalPosterRun template person photo logo out).2 = [(out, d)]) := by
  cases template with
  | none => simp [createFinalPosterRun]
  | some tpl =>
    cases photo with
    | none => simp [createFinalPosterRun]
    | some ph =>
      cases logo with
      | none => simp [createFinalPosterRun]
      | some lg =>
        constructor
        · intro e he
          simp [createFinalPosterRun] at he
        · intro d hd
          simp only [createFinalPosterRun] at hd ⊢
          rw [Except.ok.injEq] at hd
          subst hd
          rfl

/-- C3 witness: with an unreadable member photo the job fails with a decode
error and the write trace is empty. -/
theorem no_partial_output_witness :
    (createFinalPosterRun (some ⟨1000, 500⟩) sampleMember none (some ⟨3, 3⟩)
        "poster.jpeg").1 = Except.error PosterError.photoDecode ∧
    (createFinalPosterRun (some ⟨1000, 500⟩) sampleMember none (some ⟨3, 3⟩)
        "poster.jpeg").2 = [] :=
  ⟨rfl, (no_partial_output (some ⟨1000, 500⟩) sampleMember none (some ⟨3, 3⟩)
      "poster.jpeg").1 PosterError.photoDecode rfl⟩

/-- C4: every layout measurement is a function of the template width alone —
two members yield identical layouts — and the whole job result (output
dimensions and write trace) is unchanged across members and across photo and
logo buffers of different sizes. -/
theorem layout_width_deterministic :
    (∀ width : Nat, ∀ p q : Member, planLayout width p = planLayout width q) ∧
    (∀ tpl : Dims, ∀ p q : Member, ∀ ph1 ph2 lg1 lg2 : Dims, ∀ out : String,
      createFinalPosterRun (some tpl) p (some ph1) (some lg1) out =
        createFinalPosterRun (some tpl) q (some ph2) (some lg2) out) :=
  ⟨fun _ _ _ => rfl, fun _ _ _ _ _ _ _ _ => rfl⟩

/-- C5: the footer SVG contains exactly four lines — name, designation plus
brand suffix, phone, fixed credential caption — with lineSpacing fs + 6,
verticalPadding (fh - 4 lineSpacing) / 2, first baseline at
verticalPadding + fs and each further line one lineSpacing lower; the
document declares width tw and height fh. -/
theorem footerSVG_layout (name designation phone : String) (tw fh fs : ℚ) :
    (generateFooterSVG name designation phone tw fh fs).width = tw ∧
    (generateFooterSVG name designation phone tw fh fs).height = fh ∧
    (generateFooterSVG name designation phone tw fh fs).texts =
      [⟨0, (fh - 4 * (fs + 6)) / 2 + fs, name⟩,
       ⟨0, (fh - 4 * (fs + 6)) / 2 + fs + (fs + 6), designation ++ " | WealthPlus"⟩,
       ⟨0, (fh - 4 * (fs + 6)) / 2 + fs + 2 * (fs + 6), "Phone: " ++ phone⟩,
       ⟨0, (fh - 4 * (fs + 6)) / 2 + fs + 3 * (fs + 6),
         "IRDAI Certified Insurance Advisor"⟩] := by
  have h4 : (4 : ℚ) * (fs + 6) = (fs + 6) * 4 := by ring
  refine ⟨rfl, rfl, ?_⟩
  rw [h4]
  rfl

/-- C6 (counterexample): at the canonical width 800 the divider is 40 units
after the text block but 56 units before the logo, so it is not horizontally
centered in the gap between text block and logo. -/
theorem divider_not_centered_cex :
    (planLayout 800 sampleMember).rightSectionStart = 524 ∧
    (planLayout 800 sampleMember).lineX = 564 ∧
    (planLayout 800 sampleMember).lineWidth = 4 ∧
    (planLayout 800 sampleMember).logoX = 624 ∧
    ¬ ((564 : ℚ) - 524 = 624 - (564 + 4)) := by
  obtain ⟨h1, h2, h3, _, h5⟩ := planLayout_800_fields
  exact ⟨h1, h2, h3, h5, by norm_num⟩

/-- C6 (amended): the divider is a 4-unit-wide rule of height equal to the
logo side, vertically centered in the footer band with top
floor((footerHeight - logoSize) / 2), placed at a fixed 40-unit gap after the
text block; it is the logo, not the divider, that is horizontally centered in
the remaining space right of the divider, which places the divider between
the text block and the logo. -/
theorem divider_layout (width : Nat) (person : Member)
    (hfit : ((logoSize width : ℤ)) ≤ (planLayout width person).spaceAfterLine) :
    (planLayout width person).lineHeight = logoSize width ∧
    (planLayout width person).lineY = (footerHeight width - logoSize width) / 2 ∧
    (planLayout width person).lineX = (planLayout width person).rightSectionStart + 40 ∧
    (planLayout width person).logoX =
      ((planLayout width person).lineX : ℚ) + ((planLayout width person).lineWidth : ℚ) +
        (((planLayout width person).spaceAfterLine : ℚ) - (logoSize width : ℚ)) / 2 ∧
    (planLayout width person).rightSectionStart < (planLayout width person).lineX ∧
    ((planLayout width person).lineX : ℚ) + ((planLayout width person).lineWidth : ℚ) ≤
      (planLayout width person).logoX := by
  refine ⟨rfl, rfl, rfl, rfl, ?_, ?_⟩
  · have h : (planLayout width person).lineX =
        (planLayout width person).rightSectionStart + 40 := rfl
    omega
  · have h : (planLayout width person).logoX =
        ((planLayout width person).lineX : ℚ) + ((planLayout width person).lineWidth : ℚ) +
          (((planLayout width person).spaceAfterLine : ℚ) - (logoSize width : ℚ)) / 2 := rfl
    rw [h]
    have hq : (logoSize width : ℚ) ≤ ((planLayout width person).spaceAfterLine : ℚ) := by
      exact_mod_cast hfit
    linarith

/-- C6 witness: the amended divider layout at the canonical width 800, where
the remaining space after the divider (232) exceeds the logo side (120). -/
theorem divider_layout_witness :
    ((logoSize 800 : ℤ)) ≤ (planLayout 800 sampleMember).spaceAfterLine ∧
    ((planLayout 800 sampleMember).lineHeight = logoSize 800 ∧
     (planLayout 800 sampleMember).lineY = (footerHeight 800 - logoSize 800) / 2 ∧
     (planLayout 800 sampleMember).lineX = (planLayout 800 sampleMember).rightSectionStart + 40 ∧
     (planLayout 800 sampleMember).logoX =
       ((planLayout 800 sampleMember).lineX : ℚ) + ((planLayout 800 sampleMember).lineWidth : ℚ) +
         (((planLayout 800 sampleMember).spaceAfterLine : ℚ) - (logoSize 800 : ℚ)) / 2 ∧
     (planLayout 800 sampleMember).rightSectionStart < (planLayout 800 sampleMember).lineX ∧
     ((planLayout 800 sampleMember).lineX : ℚ) + ((planLayout 800 sampleMember).lineWidth : ℚ) ≤
       (planLayout 800 sampleMember).logoX) := by
  have hfit : ((logoSize 800 : ℤ)) ≤ (planLayout 800 sampleMember).spaceAfterLine := by
    rw [planLayout_800_fields.2.2.2.1]
    decide
  exact ⟨hfit, divider_layout 800 sampleMember hfit⟩

/-- C7 (counterexample): the claim quantifies over every decodable source
photo, but for a decodable translucent photo the dest-in mask multiplies
alphas, so inside the circle the PNG photo layer of createFinalPoster keeps
the partial source alpha (128) instead of being fully opaque: at diameter 4
the pixel (1, 1) lies inside the circle yet has alpha 128, not 255. -/
theorem circular_mask_opaque_cex :
    insideCircle 4 1 1 = true ∧
    (circularPhotoLayer translucentPhoto 4).img.alpha 1 1 = 128 ∧
    (circularPhotoLayer translucentPhoto 4).img.alpha 1 1 ≠ 255 :=
  ⟨rfl, rfl, by decide⟩

/-- C7 (amended): for every decodable source photo whose decoded pixels are
fully opaque, after the circular mask every pixel whose center lies outside
the circle of the planned diameter is fully transparent in the PNG photo
layer of createFinalPoster and flattened to black in the JPEG output of
processCircularImage, while every pixel inside the circle keeps the opaque
source content. -/
theorem circular_mask_spec (photo : Img) (size x y : Nat)
    (hOpaque : ∀ a b : Nat, photo.alpha a b = 255) :
    (insideCircle size x y = false →
      (circularPhotoLayer photo size).img.alpha x y = 0 ∧
      (processCircularImage photo size).img.rgb x y = (0, 0, 0)) ∧
    (insideCircle size x y = true →
      (circularPhotoLayer photo size).img.alpha x y = 255 ∧
      (processCircularImage photo size).img.alpha x y = 255 ∧
      (processCircularImage photo size).img.rgb x y =
        (resizeNN photo size size).rgb x y) := by
  constructor
  · intro hout
    constructor
    · simp [circularPhotoLayer, pngEncode, destIn, circleMask, resizeNN, hout]
    · simp [processCircularImage, jpegEncode, destIn, circleMask, resizeNN, hout]
  · intro hin
    refine ⟨?_, rfl, ?_⟩
    · simp [circularPhotoLayer, pngEncode, destIn, circleMask, resizeNN, hin, hOpaque]
    · simp [processCircularImage, jpegEncode, destIn, circleMask, resizeNN, hin, hOpaque]

/-- C7 witness: on the opaque sample photo at diameter 4, the corner pixel
(0, 0) lies outside the circle, is transparent in the PNG layer and black in
the JPEG output. -/
theorem circular_mask_spec_witness :
    insideCircle 4 0 0 = false ∧
    (circularPhotoLayer samplePhoto 4).img.alpha 0 0 = 0 ∧
    (processCircularImage samplePhoto 4).img.rgb 0 0 = (0, 0, 0) :=
  ⟨rfl, ((circular_mask_spec samplePhoto 4 0 0 (fun _ _ => rfl)).1 rfl).1,
    ((circular_mask_spec samplePhoto 4 0 0 (fun _ _ => rfl)).1 rfl).2⟩

/-- C8: the normalized logo layer — resized with fit contain to the planned
side length and flattened onto the footer background — is a 3-channel JPEG
buffer with no alpha channel, of exactly the planned square size, and every
decoded pixel is fully opaque. -/
theorem logo_layer_no_alpha (logo : Img) (size : Nat) :
    (resizedLogoLayer logo size).hasAlpha = false ∧
    (resizedLogoLayer logo size).channels = 3 ∧
    (resizedLogoLayer logo size).img.w = size ∧
    (resizedLogoLayer logo size).img.h = size ∧
    ∀ x y : Nat, (resizedLogoLayer logo size).img.alpha x y = 255 :=
  ⟨rfl, rfl, rfl, rfl, fun _ _ => rfl⟩

/-- C9: deleteMember removes exactly the rows whose email and designation
both match the given pair — their count drops to zero and every other row
keeps its multiplicity — and the surviving rows form a sublist of the
original, hence keep their relative order. -/
theorem deleteMember_removes_exactly (members : List Row) (email designation : String) :
    (deleteMember members email designation).Sublist members ∧
    ∀ m : Row, (deleteMember members email designation).count m =
      if m.email = email ∧ m.designation = designation then 0
      else members.count m := by
  constructor
  · exact List.filter_sublist members
  · intro m
    by_cases hm : m.email = email ∧ m.designation = designation
    · rw [if_pos hm]
      rw [List.count_eq_zero]
      intro hmem
      have h := (List.mem_filter.mp hmem).2
      simp [hm.1, hm.2] at h
    · rw [if_neg hm]
      apply List.count_filter
      have hf : (m.email == email && m.designation == designation) = false := by
        by_cases h1 : m.email = email
        · have h2 : ¬ m.designation = designation := fun h2 => hm ⟨h1, h2⟩
          simp [h1, h2]
        · simp [h1]
      simp [hf]

/-- C10: updateMember matches by email alone: when no row carries the
updated email it fails with "Member not found" and the file is unchanged;
otherwise it replaces the first row whose email matches — designation plays
no part in the match. -/
theorem updateMember_email_match (members : List Row) (updated : Row) :
    ((∀ m ∈ members, m.email ≠ updated.email) →
      updateMember members updated = Except.error memberNotFound ∧
      (updateMemberFileRun members updated).2 = members) ∧
    (∀ i : Nat, ∀ hi : i < members.length,
      (members.get ⟨i, hi⟩).email = updated.email →
      (∀ j : Nat, ∀ hj : j < members.length, j < i →
        (members.get ⟨j, hj⟩).email ≠ updated.email) →
      updateMember members updated = Except.ok (members.set i updated)) := by
  constructor
  · intro hnone
    have h0 : members.findIdx? (fun m => m.email == updated.email) = none := by
      rw [List.findIdx?_eq_none_iff]
      intro x hx
      simpa using hnone x hx
    constructor
    · simp [updateMember, h0]
    · simp [updateMemberFileRun, updateMember, h0]
  · intro i hi hp hmin
    have h0 : members.findIdx? (fun m => m.email == updated.email) = some i := by
      apply findIdx?_first _ members i hi
      · simpa using hp
      · intro j hj hji
        simpa using hmin j hj hji
    simp [updateMember, h0]

/-- C10 witness: with the stored rows [sampleRow], an update whose email
matches nothing fails and leaves the file unchanged, while an update with the
same email but a different designation replaces the row. -/
theorem updateMember_email_match_witness :
    updateMember [sampleRow] sampleUpdate = Except.error memberNotFound ∧
    (updateMemberFileRun [sampleRow] sampleUpdate).2 = [sampleRow] ∧
    updateMember [sampleRow] sampleUpdate2 = Except.ok [sampleUpdate2] := by
  have hne : ∀ m ∈ [sampleRow], m.email ≠ sampleUpdate.email := by decide
  have hrep := (updateMember_email_match [sampleRow] sampleUpdate2).2 0 (by decide)
    (by decide) (fun j hj hj0 => absurd hj0 (Nat.not_lt_zero j))
  exact ⟨((updateMember_email_match [sampleRow] sampleUpdate).1 hne).1,
    ((updateMember_email_match [sampleRow] sampleUpdate).1 hne).2, hrep⟩

end Image001
